import Mathlib

/-!
Shallow embedding of the Beta Team SDK core (metrics collection, report
generation and issue deduplication, adapter contract and registry), translated
from `beta_team/sdk/analytics/metrics.py`, `beta_team/sdk/analytics/reports.py`,
`beta_team/sdk/adapters/game_adapter.py` and `beta_team/sdk/core/registry.py`.

Modelling conventions:
- Python numbers (floats) are modelled as exact rationals `ℚ`.
- `datetime` values are modelled as rational seconds since an arbitrary epoch;
  `isoformat`/`fromisoformat` round-trip is modelled as the identity.
- Python `dict` (insertion-ordered) is modelled as an association list in
  insertion order.
- File contents read by `ReportGenerator.load_history` are modelled as
  `Option (Except Unit Json)`: `none` = file missing, `some (.error ())` =
  unparsable content (`json.JSONDecodeError`), `some (.ok j)` = parsed JSON
  (stored as-is, never inspected by the loader). The metrics snapshot file is
  modelled by `MetricsCollector.StoredContent`, which additionally
  distinguishes parsed-but-ill-typed content, since
  `MetricsCollector._load_history` inspects the parsed value and raises on
  some corrupt shapes.
- A Python function that can raise an exception the caller observes returns
  `Except`.
-/

namespace BetaTeam

/-- Python `dict[str, list[bool]]` in insertion order. -/
abbrev TestResultsDict := List (String × List Bool)

/-- `defaultdict(list)`-style append: `self._test_results[test_name].append(passed)`.
A missing key is created at the end of the dict (insertion order). -/
def trAppend : TestResultsDict → String → Bool → TestResultsDict
  | [], name, passed => [(name, [passed])]
  | (k, v) :: rest, name, passed =>
    if k = name then (k, v ++ [passed]) :: rest
    else (k, v) :: trAppend rest name passed

/-- Plain dict assignment `d[k] = v`: overwrite in place, else append. -/
def trSet : TestResultsDict → String → List Bool → TestResultsDict
  | [], name, v => [(name, v)]
  | (k, w) :: rest, name, v =>
    if k = name then (k, v) :: rest
    else (k, w) :: trSet rest name v

/-- `TestMetric` dataclass from `metrics.py`. -/
structure TestMetric where
  name : String
  value : ℚ
  timestamp : ℚ
  tags : List (String × String)
  metadata : List (String × String)
deriving Repr, DecidableEq

/-- `RealTimeMetrics` dataclass from `metrics.py`, with its field defaults. -/
structure RealTimeMetrics where
  crashRate : ℚ := 0
  passRate : ℚ := 0
  flakyTestRate : ℚ := 0
  avgResponseTimeMs : ℚ := 0
  avgLoadTimeMs : ℚ := 0
  activeTests : Nat := 0
  totalTests : Nat := 0
  passedTests : Nat := 0
  failedTests : Nat := 0
  engagementScore : ℚ := 0
  customMetrics : List (String × ℚ) := []
deriving Repr, DecidableEq

/-- The state of a `MetricsCollector` instance. -/
structure MetricsCollector where
  storagePath : Option String
  metrics : List TestMetric
  testResults : TestResultsDict
  crashEvents : List ℚ
  responseTimes : List ℚ
  loadTimes : List ℚ
  sessionStart : ℚ
deriving Repr, DecidableEq

namespace MetricsCollector

/-- The in-memory part of `MetricsCollector.__init__` at time `now`
(before the optional `_load_history` call). -/
def mkEmpty (storagePath : Option String) (now : ℚ) : MetricsCollector :=
  { storagePath := storagePath
    metrics := []
    testResults := []
    crashEvents := []
    responseTimes := []
    loadTimes := []
    sessionStart := now }

/-- `record_metric(name, value, tags, metadata)` at time `now`. -/
def recordMetric (c : MetricsCollector) (name : String) (value : ℚ) (now : ℚ)
    (tags : List (String × String)) (metadata : List (String × String)) :
    MetricsCollector :=
  { c with metrics := c.metrics ++ [⟨name, value, now, tags, metadata⟩] }

/-- `record_test_result(test_name, passed)`. -/
def recordTestResult (c : MetricsCollector) (testName : String) (passed : Bool) :
    MetricsCollector :=
  { c with testResults := trAppend c.testResults testName passed }

/-- `record_crash()` at time `now`. -/
def recordCrash (c : MetricsCollector) (now : ℚ) : MetricsCollector :=
  { c with crashEvents := c.crashEvents ++ [now] }

/-- `record_response_time(time_ms)`. -/
def recordResponseTime (c : MetricsCollector) (timeMs : ℚ) : MetricsCollector :=
  { c with responseTimes := c.responseTimes ++ [timeMs] }

/-- `record_load_time(time_ms)`. -/
def recordLoadTime (c : MetricsCollector) (timeMs : ℚ) : MetricsCollector :=
  { c with loadTimes := c.loadTimes ++ [timeMs] }

/-- Total recorded results: `sum(len(results) for results in self._test_results.values())`. -/
def totalResults (c : MetricsCollector) : Nat :=
  (c.testResults.map (fun p => p.2.length)).sum

/-- Total passed results: `sum(sum(results) for results in self._test_results.values())`
(`True` counts as 1). -/
def passedResults (c : MetricsCollector) : Nat :=
  (c.testResults.map (fun p => p.2.countP (fun b => b))).sum

/-- A name is counted flaky by `get_real_time_metrics` when it has at least two
runs with mixed outcomes: `len(results) >= 2 and 0 < sum(results) < len(results)`. -/
def isFlakySeq (rs : List Bool) : Bool :=
  2 ≤ rs.length && 0 < rs.countP (fun b => b) && rs.countP (fun b => b) < rs.length

/-- `get_real_time_metrics()` evaluated at time `now` (the `datetime.now()` of the call). -/
def getRealTimeMetrics (c : MetricsCollector) (now : ℚ) : RealTimeMetrics :=
  let total := c.totalResults
  let passed := c.passedResults
  let passRate : ℚ := if 0 < total then (passed : ℚ) / (total : ℚ) * 100 else 0
  let sessionHours : ℚ := (now - c.sessionStart) / 3600
  let crashRate : ℚ :=
    if 0 < sessionHours then (c.crashEvents.length : ℚ) / sessionHours else 0
  let flakyCount := c.testResults.countP (fun p => isFlakySeq p.2)
  let flakyRate : ℚ :=
    if 0 < c.testResults.length then
      (flakyCount : ℚ) / (c.testResults.length : ℚ) * 100
    else 0
  let avgResp : ℚ :=
    if c.responseTimes ≠ [] then c.responseTimes.sum / (c.responseTimes.length : ℚ) else 0
  let avgLoad : ℚ :=
    if c.loadTimes ≠ [] then c.loadTimes.sum / (c.loadTimes.length : ℚ) else 0
  { crashRate := crashRate
    passRate := passRate
    flakyTestRate := flakyRate
    avgResponseTimeMs := avgResp
    avgLoadTimeMs := avgLoad
    totalTests := if 0 < total then total else 0
    passedTests := if 0 < total then passed else 0
    failedTests := if 0 < total then total - passed else 0
    engagementScore := min 100 (passRate * (8 / 10) + (100 - flakyRate) * (2 / 10)) }

/-- An entry of the list returned by `get_flaky_tests`. -/
structure FlakyInfo where
  name : String
  totalRuns : Nat
  passCount : Nat
  failCount : Nat
  flakinessRate : ℚ
deriving Repr, DecidableEq

/-- The entries appended by the loop of `get_flaky_tests`, in dict
(first-seen) order, before sorting. -/
def flakyEntries (c : MetricsCollector) (minRuns : Nat) : List FlakyInfo :=
  c.testResults.filterMap (fun p =>
    if minRuns ≤ p.2.length then
      let passCount := p.2.countP (fun b => b)
      let failCount := p.2.length - passCount
      if 0 < passCount ∧ 0 < failCount then
        some ⟨p.1, p.2.length, passCount, failCount,
              (min passCount failCount : ℚ) / (p.2.length : ℚ) * 100⟩
      else none
    else none)

/-- `get_flaky_tests(min_runs)`: `sorted(flaky, key=..., reverse=True)` is
Python's stable sort with the comparison reversed, i.e. a stable descending
sort on `flakiness_rate`; modelled by `List.insertionSort` with the total
non-strict relation `b.flakinessRate ≤ a.flakinessRate`, which is stable. -/
def getFlakyTests (c : MetricsCollector) (minRuns : Nat) : List FlakyInfo :=
  (flakyEntries c minRuns).insertionSort
    (fun a b => b.flakinessRate ≤ a.flakinessRate)

/-- The JSON snapshot written by `save()` / read by `_load_history()`. -/
structure Snapshot where
  sessionStart : ℚ
  metrics : List TestMetric
  testResults : List (String × List Bool)
  crashEvents : List ℚ
  responseTimes : List ℚ
  loadTimes : List ℚ
deriving Repr, DecidableEq

/-- The data dict `save()` serializes (timestamps via `isoformat`, identity here). -/
def saveData (c : MetricsCollector) : Snapshot :=
  { sessionStart := c.sessionStart
    metrics := c.metrics
    testResults := c.testResults
    crashEvents := c.crashEvents
    responseTimes := c.responseTimes
    loadTimes := c.loadTimes }

/-- `save()`: writes nothing when `storage_path` is unset, else writes `saveData`. -/
def save (c : MetricsCollector) : Option Snapshot :=
  if c.storagePath.isSome then some (saveData c) else none

/-- Content of the metrics snapshot file as `_load_history` observes it.
`missing`: the file does not exist (`os.path.exists` guard, early return).
`unparsable`: `json.load` raises `json.JSONDecodeError` before any mutation;
the surrounding `except (json.JSONDecodeError, KeyError)` catches it.
`illTyped`: valid JSON of the wrong shape, breaking an operation whose
exception type is outside that caught tuple — a non-dict top level raises
`AttributeError` at `data.get("metrics", [])`, a malformed timestamp string
raises `ValueError` in `datetime.fromisoformat` — so the exception escapes
the constructor. `parsed`: a well-typed snapshot. (A dict-shaped snapshot
whose metric entries merely lack a required key raises `KeyError`, which the
source does catch after loading the preceding entries; no claim depends on
that caught-partial path and it is not distinguished here.) -/
inductive StoredContent where
  | missing
  | unparsable
  | illTyped
  | parsed (s : Snapshot)
deriving Repr

/-- `_load_history()` applied to the stored file content. On `parsed` data:
metrics and crash events are appended, test-result lists are assigned key by
key, response/load times are replaced. `session_start` is NOT restored.
`Except.error` is the escaping exception of the `illTyped` case. -/
def loadHistory (c : MetricsCollector) (stored : StoredContent) :
    Except Unit MetricsCollector :=
  if c.storagePath.isSome then
    match stored with
    | StoredContent.missing => Except.ok c
    | StoredContent.unparsable => Except.ok c
    | StoredContent.illTyped => Except.error ()
    | StoredContent.parsed d =>
      Except.ok
        { c with
          metrics := c.metrics ++ d.metrics
          testResults := d.testResults.foldl (fun acc p => trSet acc p.1 p.2) c.testResults
          crashEvents := c.crashEvents ++ d.crashEvents
          responseTimes := d.responseTimes
          loadTimes := d.loadTimes }
  else Except.ok c

/-- `MetricsCollector(storage_path)` constructed at time `now` over stored
content `stored`: fresh in-memory state, then `_load_history` when a path is
given; `Except.error` when `_load_history` raises out of the constructor. -/
def init (storagePath : Option String) (now : ℚ) (stored : StoredContent) :
    Except Unit MetricsCollector :=
  loadHistory (mkEmpty storagePath now) stored

/-- `reset()` at time `now`. -/
def reset (c : MetricsCollector) (now : ℚ) : MetricsCollector :=
  { c with
    metrics := []
    testResults := []
    crashEvents := []
    responseTimes := []
    loadTimes := []
    sessionStart := now }

end MetricsCollector

/-! ### Report generation (`reports.py`) -/

/-- A JSON value, the result of `json.load` on an arbitrary history file. -/
inductive Json where
  | null : Json
  | bool (b : Bool) : Json
  | num (q : ℚ) : Json
  | str (s : String) : Json
  | arr (xs : List Json) : Json
  | obj (fields : List (String × Json)) : Json
deriving Repr

/-- `TestCase` dataclass from `reports.py` (status is a plain string:
"passed", "failed", "skipped" or "broken"). -/
structure TestCase where
  name : String
  status : String
  durationMs : ℚ
  description : String := ""
  steps : List String := []
  attachments : List String := []
  labels : List (String × String) := []
  errorMessage : Option String := none
  stackTrace : Option String := none
deriving Repr, DecidableEq

/-- `TestSuite` dataclass from `reports.py`. -/
structure TestSuite where
  name : String
  testCases : List TestCase := []
deriving Repr, DecidableEq

/-- The dict returned by `TestSuite.get_statistics()`. -/
structure SuiteStats where
  total : Nat
  passed : Nat
  failed : Nat
  skipped : Nat
  broken : Nat
  passRate : ℚ
deriving Repr, DecidableEq

/-- `TestSuite.get_statistics()`. -/
def TestSuite.getStatistics (s : TestSuite) : SuiteStats :=
  let total := s.testCases.length
  let passed := s.testCases.countP (fun t => t.status == "passed")
  { total := total
    passed := passed
    failed := s.testCases.countP (fun t => t.status == "failed")
    skipped := s.testCases.countP (fun t => t.status == "skipped")
    broken := s.testCases.countP (fun t => t.status == "broken")
    passRate := if 0 < total then (passed : ℚ) / (total : ℚ) * 100 else 0 }

/-- An issue record in `ReportGenerator._issues`. -/
structure Issue where
  id : String
  title : String
  description : String
  severity : String
  testName : Option String
  tests : List String
  screenshot : Option String
  occurrences : Nat
  created : ℚ
deriving Repr, DecidableEq

/-- The state of a `ReportGenerator` instance. -/
structure ReportGenerator where
  outputDir : String
  suites : List TestSuite
  history : Json
  issues : List Issue
deriving Repr

/-- Python truthiness of an optional string (`if test_name:`):
`None` and the empty string are falsy. -/
def pyTruthy : Option String → Bool
  | none => false
  | some s => s ≠ ""

/-- Python `str.lower()`, modelled character-wise on the string's characters. -/
def lowerStr (s : String) : List Char :=
  s.data.map Char.toLower

/-- Python `str.strip()`: drop leading and trailing whitespace. -/
def stripCh (l : List Char) : List Char :=
  ((l.dropWhile Char.isWhitespace).reverse.dropWhile Char.isWhitespace).reverse

/-- The normalization `title.lower().strip()` applied by `_is_duplicate`. -/
def normTitle (s : String) : List Char :=
  stripCh (lowerStr s)

namespace ReportGenerator

/-- `ReportGenerator(output_dir)`. -/
def mk0 (outputDir : String) : ReportGenerator :=
  { outputDir := outputDir, suites := [], history := Json.arr [], issues := [] }

/-- `add_suite(suite)`. -/
def addSuite (g : ReportGenerator) (suite : TestSuite) : ReportGenerator :=
  { g with suites := g.suites ++ [suite] }

/-- `_is_duplicate(title1, title2)`: normalized (lowercased, stripped) titles
are equal, or one is a substring of the other (`in` on Python strings). -/
def isDup (title1 title2 : String) : Prop :=
  normTitle title1 = normTitle title2 ∨
  normTitle title1 <:+: normTitle title2 ∨
  normTitle title2 <:+: normTitle title1

instance instDecIsDup (t1 t2 : String) : Decidable (isDup t1 t2) := by
  unfold isDup
  infer_instance

/-- The mutation the duplicate branch of `add_issue` performs on the matched
issue: `occurrences += 1` and, when `test_name` is truthy, append it to `tests`. -/
def bumpIssue (testName : Option String) (e : Issue) : Issue :=
  { e with
    occurrences := e.occurrences + 1
    tests := if pyTruthy testName then e.tests ++ [testName.getD ""] else e.tests }

/-- The `for existing in self._issues` scan of `add_issue`: on the first
duplicate, bump it in place and return its id; otherwise report no match. -/
def scanIssues (title : String) (testName : Option String) :
    List Issue → Option (String × List Issue)
  | [] => none
  | e :: rest =>
    if isDup title e.title then
      some (e.id, bumpIssue testName e :: rest)
    else
      match scanIssues title testName rest with
      | some (i, l) => some (i, e :: l)
      | none => none

/-- `add_issue(title, description, severity, test_name, screenshot)` at time `now`. -/
def addIssue (g : ReportGenerator) (title description severity : String)
    (testName : Option String) (screenshot : Option String) (now : ℚ) :
    String × ReportGenerator :=
  match scanIssues title testName g.issues with
  | some (i, issues') => (i, { g with issues := issues' })
  | none =>
    let issueId := "ISSUE-" ++ toString (g.issues.length + 1)
    (issueId,
     { g with issues := g.issues ++
        [{ id := issueId
           title := title
           description := description
           severity := severity
           testName := testName
           tests := if pyTruthy testName then [testName.getD ""] else []
           screenshot := screenshot
           occurrences := 1
           created := now }] })

/-- The dict returned by `generate_summary()`. -/
structure Summary where
  stats : SuiteStats
  issuesCount : Nat
  criticalIssues : Nat
  suitesCount : Nat
deriving Repr, DecidableEq

/-- One step of the `generate_summary` accumulation loop:
`all_stats[key] += stats.get(key, 0)` for the five count keys. -/
def sumStats (acc : SuiteStats) (s : TestSuite) : SuiteStats :=
  let st := s.getStatistics
  { total := acc.total + st.total
    passed := acc.passed + st.passed
    failed := acc.failed + st.failed
    skipped := acc.skipped + st.skipped
    broken := acc.broken + st.broken
    passRate := 0 }

/-- `generate_summary()`: sum the five count keys across suites (the loop
iterates over the keys of `all_stats`, so per-suite `pass_rate` is ignored),
then recompute `pass_rate` over the sums. -/
def generateSummary (g : ReportGenerator) : Summary :=
  let acc := g.suites.foldl sumStats
    { total := 0, passed := 0, failed := 0, skipped := 0, broken := 0, passRate := 0 }
  { stats := { acc with
      passRate := if 0 < acc.total then (acc.passed : ℚ) / (acc.total : ℚ) * 100 else 0 }
    issuesCount := g.issues.length
    criticalIssues := g.issues.countP (fun i => i.severity == "critical")
    suitesCount := g.suites.length }

/-- The severity-rank dict of `generate_bullet_points`; a severity outside its
keys makes the dict lookup raise `KeyError`. -/
def severityRank : String → Option Nat
  | "critical" => some 0
  | "high" => some 1
  | "medium" => some 2
  | "low" => some 3
  | _ => none

/-- The severity-icon dict of `generate_bullet_points` (same four keys). -/
def severityIcon : String → Option String
  | "critical" => some "🔴"
  | "high" => some "🟠"
  | "medium" => some "🟡"
  | "low" => some "🟢"
  | _ => none

/-- Collect `f` over a list, failing at the first element where `f` fails
(a loop body whose dict lookup can raise `KeyError`). -/
def mapOpt (f : α → Option β) : List α → Option (List β)
  | [] => some []
  | a :: rest =>
    match f a, mapOpt f rest with
    | some b, some l => some (b :: l)
    | _, _ => none

/-- Bullet line for one issue (icon lookup can also raise `KeyError`). -/
def issueBullet (i : Issue) : Option String :=
  (severityIcon i.severity).map (fun icon =>
    "  " ++ icon ++ " " ++ i.title ++
      (if 1 < i.occurrences then " (" ++ toString i.occurrences ++ "x)" else ""))

/-- `generate_bullet_points()`. `Except.error` models the uncaught `KeyError`
raised by the severity-rank (sort key) or severity-icon dict lookup when an
issue's severity is outside the four known values. Numeric rendering of the
pass rate (`:.1f`) is abstracted to the exact rational's string. -/
def generateBulletPoints (g : ReportGenerator) : Except String (List String) :=
  let summary := generateSummary g
  let stats := summary.stats
  let b1 := ["• Ran " ++ toString stats.total ++ " tests with " ++
             toString stats.passRate ++ "% pass rate"]
  let b2 := if 0 < stats.failed then ["• " ++ toString stats.failed ++ " tests failed"] else []
  let b3 := if 0 < stats.broken then
      ["• " ++ toString stats.broken ++ " tests broken (infrastructure issues)"] else []
  let b4 := if 0 < summary.criticalIssues then
      ["• ⚠️ " ++ toString summary.criticalIssues ++ " critical issues found"] else []
  match mapOpt (fun i => (severityRank i.severity).map (fun r => (i, r))) g.issues with
  | none => Except.error "KeyError: severity"
  | some ranked =>
    let sortedIssues := (ranked.insertionSort (fun a b => a.2 ≤ b.2)).map (fun p => p.1)
    match mapOpt issueBullet sortedIssues with
    | none => Except.error "KeyError: severity"
    | some issueLines => Except.ok (b1 ++ b2 ++ b3 ++ b4 ++ issueLines)

/-- `load_history(history_file)`: skipped when the file does not exist; when it
exists, `json.load` runs with NO surrounding try/except, so unparsable content
raises (`Except.error`); parsed content replaces `_history`. -/
def loadHistoryFile (g : ReportGenerator) (stored : Option (Except Unit Json)) :
    Except Unit ReportGenerator :=
  match stored with
  | none => Except.ok g
  | some (Except.error e) => Except.error e
  | some (Except.ok h) => Except.ok { g with history := h }

end ReportGenerator

/-! ### Adapter contract (`core/base.py`) and game adapter (`adapters/game_adapter.py`) -/

/-- `TestStatus` enum from `core/base.py`. -/
inductive TestStatus where
  | passed
  | failed
  | skipped
  | error
deriving Repr, DecidableEq

/-- `SoftwareType` enum from `core/base.py`. -/
inductive SoftwareType where
  | videoGame
  | vstPlugin
  | daw
  | webApp
  | windowsApp
  | fintech
  | biotech
deriving Repr, DecidableEq

/-- `TestResult` dataclass from `core/base.py` (metadata values that matter to
the game adapter are numeric). -/
structure TestResult where
  name : String
  status : TestStatus
  duration : ℚ
  screenshotPath : Option String := none
  logPath : Option String := none
  errorMessage : Option String := none
  metadata : List (String × ℚ) := []
deriving Repr, DecidableEq

/-- `BenchmarkMetrics` dataclass from `core/base.py`, with its field defaults. -/
structure BenchmarkMetrics where
  loadTime : ℚ := 0
  memoryUsageMb : ℚ := 0
  cpuUsagePercent : ℚ := 0
  crashCount : Nat := 0
  fpsAverage : ℚ := 0
  responseTimeMs : ℚ := 0
  uiStabilityScore : ℚ := 100
  customMetrics : List (String × Bool) := []
deriving Repr, DecidableEq

/-- The state of a `GameAdapter` instance (base-class fields `_connected`,
`_config`-derived fields, plus the adapter's own fields). -/
structure GameAdapter where
  name : String := "GameAdapter"
  connected : Bool := false
  hasProcess : Bool := false
  logs : List String := []
  screenshotDir : String := ""
  airtestEnabled : Bool := false
  betahubEnabled : Bool := false
  startupDelay : ℚ := 2
deriving Repr, DecidableEq

/-- The external world a `GameAdapter` call observes: filesystem checks,
process launch outcome, AirTest script outcome, psutil availability and probe
outcome, clock readings. `now` is `time.time()` at the start of `run_test`,
`tEnd` at its return. -/
structure GameEnv where
  targetExists : Bool
  targetIsFile : Bool
  launchOk : Bool
  scriptExists : Bool
  psutilInstalled : Bool
  probeOk : Bool
  memoryMb : ℚ
  cpuPercent : ℚ
  now : ℚ
  tEnd : ℚ
deriving Repr, DecidableEq

/-- An external interaction attempted by `run_test` (for stating that the
Disconnected branch attempts none). -/
inductive ExtCall where
  | airtestRun (script : String)
  | metricsProbe
  | screenshotCapture (filename : String)
deriving Repr, DecidableEq

namespace GameAdapter

/-- `connect(target)`: missing path or non-file logs and returns `False`
without touching `_connected`; a failing `Popen` is caught, logs and returns
`False`; success sets `_connected = True` and logs. -/
def connect (a : GameAdapter) (env : GameEnv) (target : String) : Bool × GameAdapter :=
  if !env.targetExists then
    (false, { a with logs := a.logs ++ ["Game executable not found: " ++ target] })
  else if !env.targetIsFile then
    (false, { a with logs := a.logs ++ ["Target is not a file: " ++ target] })
  else if env.launchOk then
    (true, { a with connected := true, hasProcess := true,
                    logs := a.logs ++ ["Game launched: " ++ target] })
  else
    (false, { a with logs := a.logs ++ ["Failed to launch game"] })

/-- `disconnect()`: terminate the process if any, flip `_connected`, log. -/
def disconnect (a : GameAdapter) : GameAdapter :=
  { a with connected := false, hasProcess := false,
           logs := a.logs ++ ["Game disconnected"] }

/-- `_run_airtest_script(script_path)`: `False` when the script file is
missing, else logs and returns `True` (the execution body cannot raise in the
current code). -/
def runAirtestScript (a : GameAdapter) (env : GameEnv) (scriptPath : String) :
    Bool × GameAdapter :=
  if !env.scriptExists then
    (false, { a with logs := a.logs ++ ["AirTest script not found: " ++ scriptPath] })
  else
    (true, { a with logs := a.logs ++ ["AirTest script executed: " ++ scriptPath] })

/-- The `if self._betahub_enabled:` augmentation at the end of
`collect_metrics`, reached only when the try block exits normally. -/
def addBetahub (a : GameAdapter) (m : BenchmarkMetrics) : BenchmarkMetrics :=
  if a.betahubEnabled then
    { m with customMetrics := m.customMetrics ++ [("betahub_session", true)] }
  else m

/-- `collect_metrics()`: defaults, plus the psutil probe when a process handle
is live, plus the BetaHub custom flag. The probe's
`except (ImportError, psutil.NoSuchProcess, psutil.AccessDenied)` tuple is
evaluated at exception-handling time: when `import psutil` itself failed,
reading `psutil.NoSuchProcess` raises `NameError`, which escapes
`collect_metrics` (`Except.error`). With psutil installed, a probe failure
(process gone, access denied) is caught and leaves the default metrics. -/
def collectMetrics (a : GameAdapter) (env : GameEnv) :
    Except Unit BenchmarkMetrics :=
  let base : BenchmarkMetrics := {}
  if a.hasProcess then
    if env.psutilInstalled then
      let withProc :=
        if env.probeOk then
          { base with memoryUsageMb := env.memoryMb, cpuUsagePercent := env.cpuPercent }
        else base
      Except.ok (addBetahub a withProc)
    else Except.error ()
  else Except.ok (addBetahub a base)

/-- `capture_screenshot(filename)`: `None` when no screenshot dir is set,
else the joined path (both the AirTest branch and the fallback return the path
and only differ in the log line). -/
def captureScreenshot (a : GameAdapter) (filename : String) :
    Option String × GameAdapter :=
  if a.screenshotDir = "" then (none, a)
  else
    let path := a.screenshotDir ++ "/" ++ filename ++ ".png"
    if a.airtestEnabled then
      (some path, { a with logs := a.logs ++ ["Screenshot captured: " ++ path] })
    else
      (some path, { a with logs := a.logs ++ ["Screenshot path: " ++ path] })

/-- The tail of `run_test` after the AirTest stage: `collect_metrics`, then
screenshot capture, then the Passed result. `collect_metrics` is the one
helper whose exception (`NameError`, psutil missing with a live process)
reaches `run_test`'s surrounding `except Exception as e`, which turns it into
an Error result carrying the message — at that point metrics collection was
attempted but screenshot capture was not. `pre` is the trace so far. -/
def finishRun (a : GameAdapter) (env : GameEnv) (testName : String)
    (pre : List ExtCall) : TestResult × GameAdapter × List ExtCall :=
  match collectMetrics a env with
  | Except.error _ =>
    ({ name := testName
       status := TestStatus.error
       duration := env.tEnd - env.now
       errorMessage := some "NameError: name psutil is not defined" }, a,
     pre ++ [ExtCall.metricsProbe])
  | Except.ok metrics =>
    let (shot, a2) := captureScreenshot a (testName ++ "_" ++ toString env.tEnd)
    ({ name := testName
       status := TestStatus.passed
       duration := env.tEnd - env.now
       screenshotPath := shot
       metadata := [("fps_average", metrics.fpsAverage),
                    ("memory_mb", metrics.memoryUsageMb)] }, a2,
     pre ++ [ExtCall.metricsProbe,
             ExtCall.screenshotCapture (testName ++ "_" ++ toString env.tEnd)])

/-- `run_test(test_name, **kwargs)` with the optional `airtest_script`
parameter. Also returns the updated adapter and the trace of external
interactions attempted, in order. -/
def runTest (a : GameAdapter) (env : GameEnv) (testName : String)
    (airtestScript : Option String) :
    TestResult × GameAdapter × List ExtCall :=
  if !a.connected then
    ({ name := testName
       status := TestStatus.error
       duration := 0
       errorMessage := some "Not connected to game" }, a, [])
  else
    match airtestScript with
    | some script =>
      if a.airtestEnabled then
        let (ok, a1) := runAirtestScript a env script
        if !ok then
          ({ name := testName
             status := TestStatus.failed
             duration := env.tEnd - env.now
             errorMessage := some "AirTest script failed" }, a1,
           [ExtCall.airtestRun script])
        else
          finishRun a1 env testName [ExtCall.airtestRun script]
      else
        finishRun a env testName []
    | none =>
      finishRun a env testName []

end GameAdapter

/-! ### Adapter registry (`core/registry.py`) -/

/-- A registered adapter class: its Python class name and its `SOFTWARE_TYPE`
class attribute when declared (`hasattr` check). -/
structure AdapterClass where
  className : String
  softwareType : Option SoftwareType
deriving Repr, DecidableEq

/-- The class-level `_adapters` dict: name → class, insertion-ordered. -/
abbrev Registry := List (String × AdapterClass)

namespace AdapterRegistry

/-- Dict assignment `cls._adapters[name] = adapter_class`. -/
def dictSet : Registry → String → AdapterClass → Registry
  | [], name, c => [(name, c)]
  | (k, w) :: rest, name, c =>
    if k = name then (k, c) :: rest
    else (k, w) :: dictSet rest name c

/-- `register(adapter_class, name)`: name defaults to the class name;
silently overwrites on collision. -/
def register (reg : Registry) (adapterClass : AdapterClass) (name : Option String) :
    Registry :=
  dictSet reg (name.getD adapterClass.className) adapterClass

/-- `get_adapter_class(name)`: `dict.get`, `None` when absent. -/
def getAdapterClass (reg : Registry) (name : String) : Option AdapterClass :=
  (reg.find? (fun p => p.1 == name)).map (fun p => p.2)

/-- `create_adapter(name, **kwargs)`: instantiate the class when registered,
else return `None` (never raises). The created instance is represented by its
class. -/
def createAdapter (reg : Registry) (name : String) : Option AdapterClass :=
  match reg.find? (fun p => p.1 == name) with
  | some p => some p.2
  | none => none

/-- `list_adapters_by_type(software_type)`: the names whose class declares a
matching `SOFTWARE_TYPE`; classes without the attribute are skipped. -/
def listAdaptersByType (reg : Registry) (softwareType : SoftwareType) : List String :=
  reg.filterMap (fun p =>
    match p.2.softwareType with
    | some st => if st = softwareType then some p.1 else none
    | none => none)

end AdapterRegistry

/-! ### Shared lemmas about the metrics collector -/

namespace MetricsCollector

theorem rtm_totalTests (c : MetricsCollector) (now : ℚ) :
    (c.getRealTimeMetrics now).totalTests =
      if 0 < c.totalResults then c.totalResults else 0 := rfl

theorem rtm_passedTests (c : MetricsCollector) (now : ℚ) :
    (c.getRealTimeMetrics now).passedTests =
      if 0 < c.totalResults then c.passedResults else 0 := rfl

theorem rtm_failedTests (c : MetricsCollector) (now : ℚ) :
    (c.getRealTimeMetrics now).failedTests =
      if 0 < c.totalResults then c.totalResults - c.passedResults else 0 := rfl

theorem rtm_passRate (c : MetricsCollector) (now : ℚ) :
    (c.getRealTimeMetrics now).passRate =
      if 0 < c.totalResults
      then (c.passedResults : ℚ) / (c.totalResults : ℚ) * 100 else 0 := rfl

theorem rtm_crashRate (c : MetricsCollector) (now : ℚ) :
    (c.getRealTimeMetrics now).crashRate =
      if 0 < (now - c.sessionStart) / 3600
      then (c.crashEvents.length : ℚ) / ((now - c.sessionStart) / 3600) else 0 := rfl

theorem passed_le_total (c : MetricsCollector) : c.passedResults ≤ c.totalResults := by
  unfold passedResults totalResults
  apply List.sum_le_sum
  intro p _
  exact List.countP_le_length _

/-- Pass-rate arithmetic of `get_real_time_metrics`, for an arbitrary collector state. -/
theorem rtm_pass_invariants (c : MetricsCollector) (now : ℚ) :
    (c.getRealTimeMetrics now).passedTests + (c.getRealTimeMetrics now).failedTests
      = (c.getRealTimeMetrics now).totalTests ∧
    (c.getRealTimeMetrics now).passRate
      = (if 0 < (c.getRealTimeMetrics now).totalTests
         then ((c.getRealTimeMetrics now).passedTests : ℚ)
              / ((c.getRealTimeMetrics now).totalTests : ℚ) * 100
         else 0) ∧
    0 ≤ (c.getRealTimeMetrics now).passRate ∧
    (c.getRealTimeMetrics now).passRate ≤ 100 := by
  have hple := passed_le_total c
  rw [rtm_totalTests, rtm_passedTests, rtm_failedTests, rtm_passRate]
  by_cases h : 0 < c.totalResults
  · have ht : (0 : ℚ) < (c.totalResults : ℚ) := by exact_mod_cast h
    have hp : (c.passedResults : ℚ) ≤ (c.totalResults : ℚ) := by exact_mod_cast hple
    have hp0 : (0 : ℚ) ≤ (c.passedResults : ℚ) := by positivity
    refine ⟨?_, ?_, ?_, ?_⟩
    · simp only [if_pos h]
      exact Nat.add_sub_cancel' hple
    · simp [if_pos h]
    · simp only [if_pos h]
      positivity
    · simp only [if_pos h]
      have hdiv : (c.passedResults : ℚ) / (c.totalResults : ℚ) ≤ 1 :=
        (div_le_one ht).mpr hp
      calc (c.passedResults : ℚ) / (c.totalResults : ℚ) * 100
          ≤ 1 * 100 := by
            apply mul_le_mul_of_nonneg_right hdiv
            norm_num
        _ = 100 := by norm_num
  · simp [if_neg h]

end MetricsCollector

/-- Folding a sequence of `record_test_result` calls from a fresh collector. -/
def runRecords (path : Option String) (t0 : ℚ) (calls : List (String × Bool)) :
    MetricsCollector :=
  calls.foldl (fun c p => c.recordTestResult p.1 p.2) (MetricsCollector.mkEmpty path t0)

/-- C4: for every sequence of `record_test_result` calls, `get_real_time_metrics`
satisfies `passed_tests + failed_tests = total_tests`,
`pass_rate = passed / total × 100` when `total > 0` and `0` otherwise, and
`pass_rate` always lies in `[0, 100]`. -/
theorem C4_pass_rate_arithmetic (calls : List (String × Bool)) (path : Option String)
    (t0 now : ℚ) :
    ((runRecords path t0 calls).getRealTimeMetrics now).passedTests
        + ((runRecords path t0 calls).getRealTimeMetrics now).failedTests
      = ((runRecords path t0 calls).getRealTimeMetrics now).totalTests ∧
    ((runRecords path t0 calls).getRealTimeMetrics now).passRate
      = (if 0 < ((runRecords path t0 calls).getRealTimeMetrics now).totalTests
         then (((runRecords path t0 calls).getRealTimeMetrics now).passedTests : ℚ)
              / (((runRecords path t0 calls).getRealTimeMetrics now).totalTests : ℚ) * 100
         else 0) ∧
    0 ≤ ((runRecords path t0 calls).getRealTimeMetrics now).passRate ∧
    ((runRecords path t0 calls).getRealTimeMetrics now).passRate ≤ 100 :=
  MetricsCollector.rtm_pass_invariants (runRecords path t0 calls) now

namespace ReportGenerator

theorem foldl_sumStats (suites : List TestSuite) (acc : SuiteStats) :
    (suites.foldl sumStats acc).total
        = acc.total + (suites.map (fun s => s.getStatistics.total)).sum ∧
    (suites.foldl sumStats acc).passed
        = acc.passed + (suites.map (fun s => s.getStatistics.passed)).sum ∧
    (suites.foldl sumStats acc).failed
        = acc.failed + (suites.map (fun s => s.getStatistics.failed)).sum ∧
    (suites.foldl sumStats acc).skipped
        = acc.skipped + (suites.map (fun s => s.getStatistics.skipped)).sum ∧
    (suites.foldl sumStats acc).broken
        = acc.broken + (suites.map (fun s => s.getStatistics.broken)).sum := by
  induction suites generalizing acc with
  | nil => simp
  | cons s rest ih =>
    simp only [List.foldl_cons, List.map_cons, List.sum_cons]
    obtain ⟨h1, h2, h3, h4, h5⟩ := ih (sumStats acc s)
    refine ⟨?_, ?_, ?_, ?_, ?_⟩
    · rw [h1]; simp [sumStats, Nat.add_assoc]
    · rw [h2]; simp [sumStats, Nat.add_assoc]
    · rw [h3]; simp [sumStats, Nat.add_assoc]
    · rw [h4]; simp [sumStats, Nat.add_assoc]
    · rw [h5]; simp [sumStats, Nat.add_assoc]

end ReportGenerator

/-- C8: `generate_summary` sums the per-suite total/passed/failed/skipped/broken
counts across all suites, computes `pass_rate = passed / total × 100` with 0
when `total = 0`, and counts `critical_issues` as the issues with severity
exactly "critical"; over zero suites it returns total = 0, pass_rate = 0,
critical_issues = 0. -/
theorem C8_generate_summary :
    (∀ g : ReportGenerator,
      g.generateSummary.stats.total
          = (g.suites.map (fun s => s.getStatistics.total)).sum ∧
      g.generateSummary.stats.passed
          = (g.suites.map (fun s => s.getStatistics.passed)).sum ∧
      g.generateSummary.stats.failed
          = (g.suites.map (fun s => s.getStatistics.failed)).sum ∧
      g.generateSummary.stats.skipped
          = (g.suites.map (fun s => s.getStatistics.skipped)).sum ∧
      g.generateSummary.stats.broken
          = (g.suites.map (fun s => s.getStatistics.broken)).sum ∧
      g.generateSummary.stats.passRate
          = (if 0 < g.generateSummary.stats.total
             then (g.generateSummary.stats.passed : ℚ)
                  / (g.generateSummary.stats.total : ℚ) * 100
             else 0) ∧
      g.generateSummary.criticalIssues
          = g.issues.countP (fun i => i.severity == "critical")) ∧
    (∀ dir : String,
      (ReportGenerator.mk0 dir).generateSummary.stats.total = 0 ∧
      (ReportGenerator.mk0 dir).generateSummary.stats.passRate = 0 ∧
      (ReportGenerator.mk0 dir).generateSummary.criticalIssues = 0) := by
  constructor
  · intro g
    obtain ⟨h1, h2, h3, h4, h5⟩ := ReportGenerator.foldl_sumStats g.suites
      { total := 0, passed := 0, failed := 0, skipped := 0, broken := 0, passRate := 0 }
    exact ⟨by simpa using h1, by simpa using h2, by simpa using h3,
           by simpa using h4, by simpa using h5, rfl, rfl⟩
  · intro dir
    exact ⟨rfl, rfl, rfl⟩

/-- C9: `create_adapter` for a name that is not registered returns `None`
(and, being a plain `dict.get`, never raises), and `list_adapters_by_type`
returns exactly the registered names whose class declares a `SOFTWARE_TYPE`
equal to the requested category. -/
theorem C9_registry_miss_and_filter :
    (∀ (reg : Registry) (name : String),
        (∀ p ∈ reg, p.1 ≠ name) → AdapterRegistry.createAdapter reg name = none) ∧
    (∀ (reg : Registry) (t : SoftwareType) (n : String),
        n ∈ AdapterRegistry.listAdaptersByType reg t ↔
          ∃ c : AdapterClass, (n, c) ∈ reg ∧ c.softwareType = some t) := by
  constructor
  · intro reg name h
    unfold AdapterRegistry.createAdapter
    have hfind : reg.find? (fun p => p.1 == name) = none := by
      rw [List.find?_eq_none]
      intro p hp
      simpa using h p hp
    rw [hfind]
  · intro reg t n
    unfold AdapterRegistry.listAdaptersByType
    rw [List.mem_filterMap]
    constructor
    · rintro ⟨p, hp, hf⟩
      rcases hst : p.2.softwareType with _ | st
      · rw [hst] at hf; simp at hf
      · rw [hst] at hf
        by_cases heq : st = t
        · subst heq
          simp at hf
          subst hf
          exact ⟨p.2, by simpa using hp, hst⟩
        · simp [heq] at hf
    · rintro ⟨c, hc, hst⟩
      refine ⟨(n, c), hc, ?_⟩
      simp [hst]

/-- C9 witness: a concrete registry with one web adapter; creating an
unregistered name yields `None`, and the web category lists exactly it. -/
theorem C9_witness :
    AdapterRegistry.createAdapter
        [("WebAdapter", ⟨"WebAdapter", some SoftwareType.webApp⟩)] "GameAdapter" = none ∧
    "WebAdapter" ∈ AdapterRegistry.listAdaptersByType
        [("WebAdapter", ⟨"WebAdapter", some SoftwareType.webApp⟩)] SoftwareType.webApp := by
  constructor
  · exact C9_registry_miss_and_filter.1 _ _ (by decide)
  · exact (C9_registry_miss_and_filter.2 _ _ _).mpr
      ⟨⟨"WebAdapter", some SoftwareType.webApp⟩, by simp, rfl⟩

/-- C3: a disconnected adapter's `run_test` returns an Error result with
duration 0 and the "Not connected to game" message (which contains
"not connected" case-insensitively), attempting no external call; and a
`connect` on a nonexistent target returns `False` and leaves the adapter
disconnected. -/
theorem C3_disconnected_run_test :
    (∀ (a : GameAdapter) (env : GameEnv) (testName : String) (script : Option String),
        GameAdapter.runTest { a with connected := false } env testName script =
          ({ name := testName
             status := TestStatus.error
             duration := 0
             errorMessage := some "Not connected to game" },
           { a with connected := false }, [])) ∧
    ("not connected").data <:+: lowerStr "Not connected to game" ∧
    (∀ (a : GameAdapter) (env : GameEnv) (target : String),
        (GameAdapter.connect { a with connected := false }
            { env with targetExists := false } target).1 = false ∧
        (GameAdapter.connect { a with connected := false }
            { env with targetExists := false } target).2.connected = false) := by
  refine ⟨?_, by decide, ?_⟩
  · intro a env testName script
    simp [GameAdapter.runTest]
  · intro a env target
    constructor <;> simp [GameAdapter.connect]

/-- C10: `add_issue` stores any severity string without validation, and a
report state containing an issue whose severity is outside
{critical, high, medium, low} — reachable from a fresh generator through the
public `add_issue` — makes `generate_bullet_points` fail with a `KeyError`
instead of returning a list. -/
theorem C10_unvalidated_severity_breaks_bullets :
    (∀ (dir title desc sev : String) (tn sc : Option String) (now : ℚ),
        ∃ i ∈ ((ReportGenerator.mk0 dir).addIssue title desc sev tn sc now).2.issues,
          i.severity = sev) ∧
    (∀ (dir title desc sev : String) (tn sc : Option String) (now : ℚ),
        ReportGenerator.severityRank sev = none →
        (((ReportGenerator.mk0 dir).addIssue title desc sev tn sc now).2.generateBulletPoints).isOk
          = false) := by
  constructor
  · intro dir title desc sev tn sc now
    simp [ReportGenerator.addIssue, ReportGenerator.scanIssues, ReportGenerator.mk0]
  · intro dir title desc sev tn sc now hrank
    simp [ReportGenerator.addIssue, ReportGenerator.scanIssues, ReportGenerator.mk0,
          ReportGenerator.generateBulletPoints, ReportGenerator.mapOpt, hrank,
          Except.isOk, Except.toBool]

/-- C10 witness: the severity "blocker" is stored verbatim and then breaks
`generate_bullet_points`. -/
theorem C10_witness :
    (((ReportGenerator.mk0 "reports").addIssue "Crash on load" "boom" "blocker"
        (some "test_load") none 0).2.generateBulletPoints).isOk = false :=
  C10_unvalidated_severity_breaks_bullets.2 "reports" "Crash on load" "boom" "blocker"
    (some "test_load") none 0 rfl

/-- C6 counterexample: `ReportGenerator.load_history` on an existing but
unparsable history file raises (`json.load` runs without a try/except),
contradicting "never raises an exception from the load operation". -/
theorem C6_counterexample :
    (ReportGenerator.mk0 "reports").loadHistoryFile (some (Except.error ()))
      = Except.error () := rfl

/-- C6 (amended): a missing snapshot degrades to empty history, without
raising, for both the metrics collector and the report generator; an
unparsable snapshot (`json.JSONDecodeError`) degrades to empty history for
the metrics collector (whose loader catches `JSONDecodeError`/`KeyError`) but
raises from `ReportGenerator.load_history`, which runs `json.load` with no
handler; and a parsed-but-ill-typed snapshot (non-dict top level →
`AttributeError`, malformed timestamp → `ValueError`) raises from the metrics
collector's constructor as well. -/
theorem C6_load_degradation :
    (∀ (path : Option String) (now : ℚ),
        MetricsCollector.init path now MetricsCollector.StoredContent.missing
          = Except.ok (MetricsCollector.mkEmpty path now)) ∧
    (∀ (path : Option String) (now : ℚ),
        MetricsCollector.init path now MetricsCollector.StoredContent.unparsable
          = Except.ok (MetricsCollector.mkEmpty path now)) ∧
    (∀ (path : String) (now : ℚ),
        MetricsCollector.init (some path) now MetricsCollector.StoredContent.illTyped
          = Except.error ()) ∧
    (∀ g : ReportGenerator, g.loadHistoryFile none = Except.ok g) ∧
    (∀ g : ReportGenerator,
        g.loadHistoryFile (some (Except.error ())) = Except.error ()) := by
  refine ⟨?_, ?_, fun path now => rfl, fun g => rfl, fun g => rfl⟩
  · intro path now
    cases path <;> rfl
  · intro path now
    cases path <;> rfl

theorem trSet_of_not_mem (acc : TestResultsDict) (k : String) (v : List Bool)
    (h : k ∉ acc.map Prod.fst) : trSet acc k v = acc ++ [(k, v)] := by
  induction acc with
  | nil => rfl
  | cons p rest ih =>
    obtain ⟨pk, pv⟩ := p
    simp only [List.map_cons, List.mem_cons] at h
    push_neg at h
    obtain ⟨h1, h2⟩ := h
    simp [trSet, Ne.symm h1, ih h2]

theorem trSet_foldl (l acc : TestResultsDict)
    (hdisj : ∀ k ∈ acc.map Prod.fst, k ∉ l.map Prod.fst)
    (hl : (l.map Prod.fst).Nodup) :
    l.foldl (fun acc p => trSet acc p.1 p.2) acc = acc ++ l := by
  induction l generalizing acc with
  | nil => simp
  | cons p rest ih =>
    obtain ⟨pk, pv⟩ := p
    simp only [List.foldl_cons]
    have hpk : pk ∉ acc.map Prod.fst := by
      intro hmem
      exact hdisj pk hmem (by simp)
    rw [trSet_of_not_mem acc pk pv hpk, ih (acc ++ [(pk, pv)])]
    · simp
    · intro k hk
      simp only [List.map_append, List.mem_append, List.map_cons, List.map_nil,
        List.mem_singleton] at hk
      rcases hk with hk | hk
      · intro hmem
        exact hdisj k hk (by simp [hmem])
      · subst hk
        simp only [List.map_cons, List.nodup_cons] at hl
        exact hl.1
    · simp only [List.map_cons, List.nodup_cons] at hl
      exact hl.2

theorem init_of_saveData (c : MetricsCollector) (path : String) (t : ℚ)
    (hkeys : (c.testResults.map Prod.fst).Nodup) :
    MetricsCollector.init (some path) t (MetricsCollector.StoredContent.parsed c.saveData)
      = Except.ok { c with storagePath := some path, sessionStart := t } := by
  have hfold : c.testResults.foldl (fun acc p => trSet acc p.1 p.2)
      ([] : TestResultsDict) = c.testResults := by
    rw [trSet_foldl c.testResults [] (by simp) hkeys]
    simp
  simp [MetricsCollector.init, MetricsCollector.loadHistory, MetricsCollector.mkEmpty,
        MetricsCollector.saveData, hfold]

/-- C1 (amended): reloading a saved snapshot into a fresh collector raises
nothing and restores the full raw event history, so every
`get_real_time_metrics` field except `crash_rate` is identical to the
pre-save instance's when evaluated at the same time; `crash_rate` is instead
computed against the fresh collector's own construction time, because
`_load_history` never restores the serialized `session_start`. (Hypothesis:
the pre-save dict has no duplicate keys, as any real Python dict.) -/
theorem C1_save_load_roundtrip (c : MetricsCollector) (path : String) (t now : ℚ)
    (hkeys : (c.testResults.map Prod.fst).Nodup) :
    MetricsCollector.init (some path) t (MetricsCollector.StoredContent.parsed c.saveData)
      = Except.ok { c with storagePath := some path, sessionStart := t } ∧
    (∀ m' : MetricsCollector,
      MetricsCollector.init (some path) t
          (MetricsCollector.StoredContent.parsed c.saveData) = Except.ok m' →
        (m'.getRealTimeMetrics now).passRate = (c.getRealTimeMetrics now).passRate ∧
        (m'.getRealTimeMetrics now).totalTests = (c.getRealTimeMetrics now).totalTests ∧
        (m'.getRealTimeMetrics now).passedTests = (c.getRealTimeMetrics now).passedTests ∧
        (m'.getRealTimeMetrics now).failedTests = (c.getRealTimeMetrics now).failedTests ∧
        (m'.getRealTimeMetrics now).flakyTestRate
          = (c.getRealTimeMetrics now).flakyTestRate ∧
        (m'.getRealTimeMetrics now).avgResponseTimeMs
          = (c.getRealTimeMetrics now).avgResponseTimeMs ∧
        (m'.getRealTimeMetrics now).avgLoadTimeMs
          = (c.getRealTimeMetrics now).avgLoadTimeMs ∧
        (m'.getRealTimeMetrics now).engagementScore
          = (c.getRealTimeMetrics now).engagementScore ∧
        (m'.getRealTimeMetrics now).crashRate
          = (if 0 < (now - t) / 3600
             then (c.crashEvents.length : ℚ) / ((now - t) / 3600) else 0)) := by
  have hstate := init_of_saveData c path t hkeys
  refine ⟨hstate, ?_⟩
  intro m' hm
  rw [hstate] at hm
  injection hm with hm
  subst hm
  exact ⟨rfl, rfl, rfl, rfl, rfl, rfl, rfl, rfl, rfl⟩

/-- C1 witness: the round-trip theorem applied to a concrete collector. -/
theorem C1_save_load_roundtrip_witness :
    MetricsCollector.init (some "metrics.json") 100
        (MetricsCollector.StoredContent.parsed
          (((MetricsCollector.mkEmpty (some "metrics.json")
              0).recordTestResult "t1" true).recordCrash 5).saveData)
      = Except.ok
          { ((MetricsCollector.mkEmpty (some "metrics.json") 0).recordTestResult
              "t1" true).recordCrash 5 with
            storagePath := some "metrics.json", sessionStart := 100 } :=
  (C1_save_load_roundtrip
    (((MetricsCollector.mkEmpty (some "metrics.json") 0).recordTestResult
        "t1" true).recordCrash 5)
    "metrics.json" 100 200 (by decide)).1

/-- Pre-save collector for the C1 counterexample: one crash, session start 0. -/
def c1pre : MetricsCollector :=
  (MetricsCollector.mkEmpty (some "metrics.json") 0).recordCrash 0

/-- A fresh collector constructed at time 3600 that loads `c1pre`'s snapshot
(the load of a well-typed snapshot cannot raise). -/
def c1post : MetricsCollector :=
  match MetricsCollector.init (some "metrics.json") 3600
      (MetricsCollector.StoredContent.parsed c1pre.saveData) with
  | Except.ok m => m
  | Except.error _ => MetricsCollector.mkEmpty (some "metrics.json") 3600

/-- C1 counterexample: evaluated at the same time 3600, the reloaded
collector's `crash_rate` is 0 while the pre-save instance's is 1, because
`_load_history` does not restore `session_start` even though `save`
serializes it. -/
theorem C1_counterexample :
    (c1post.getRealTimeMetrics 3600).crashRate
      ≠ (c1pre.getRealTimeMetrics 3600).crashRate := by
  rw [MetricsCollector.rtm_crashRate, MetricsCollector.rtm_crashRate]
  norm_num [c1post, c1pre, MetricsCollector.init, MetricsCollector.loadHistory,
    MetricsCollector.mkEmpty, MetricsCollector.saveData, MetricsCollector.recordCrash]

/-! ### Lemmas about issue deduplication -/

namespace ReportGenerator

theorem isDup_symm (a b : String) : isDup a b ↔ isDup b a := by
  unfold isDup
  tauto

theorem bumpIssue_title (tn : Option String) (e : Issue) :
    (bumpIssue tn e).title = e.title := rfl

theorem scanIssues_eq_none_iff (title : String) (tn : Option String) (l : List Issue) :
    scanIssues title tn l = none ↔ ∀ e ∈ l, ¬ isDup title e.title := by
  induction l with
  | nil => simp [scanIssues]
  | cons e rest ih =>
    by_cases he : isDup title e.title
    · simp [scanIssues, he]
    · cases hres : scanIssues title tn rest with
      | none =>
        simp only [scanIssues, if_neg he, hres, List.forall_mem_cons]
        exact Iff.intro (fun _ => ⟨he, ih.mp hres⟩) (fun _ => trivial)
      | some p =>
        obtain ⟨pi, pl⟩ := p
        simp only [scanIssues, if_neg he, hres, List.forall_mem_cons]
        constructor
        · intro hcontra
          exact absurd hcontra (by simp)
        · intro hall
          have hnone : scanIssues title tn rest = none := ih.mpr hall.2
          rw [hnone] at hres
          cases hres

theorem scanIssues_first (title : String) (tn : Option String)
    (l₁ : List Issue) (e : Issue) (l₂ : List Issue)
    (h1 : ∀ x ∈ l₁, ¬ isDup title x.title) (he : isDup title e.title) :
    scanIssues title tn (l₁ ++ e :: l₂) = some (e.id, l₁ ++ bumpIssue tn e :: l₂) := by
  induction l₁ with
  | nil => simp [scanIssues, he]
  | cons x rest ih =>
    have hx : ¬ isDup title x.title := h1 x (by simp)
    have hrest := ih (fun y hy => h1 y (by simp [hy]))
    simp [scanIssues, hx, hrest]

theorem scanIssues_some_titles (title : String) (tn : Option String)
    (l : List Issue) (i : String) (l' : List Issue)
    (h : scanIssues title tn l = some (i, l')) :
    l'.map (fun e => e.title) = l.map (fun e => e.title) := by
  induction l generalizing l' with
  | nil => simp [scanIssues] at h
  | cons e rest ih =>
    by_cases he : isDup title e.title
    · simp only [scanIssues, if_pos he, Option.some.injEq, Prod.mk.injEq] at h
      rw [← h.2]
      simp [bumpIssue_title]
    · cases hres : scanIssues title tn rest with
      | none => simp [scanIssues, he, hres] at h
      | some p =>
        obtain ⟨pi, pl⟩ := p
        simp only [scanIssues, if_neg he, hres, Option.some.injEq, Prod.mk.injEq] at h
        obtain ⟨hi, hl⟩ := h
        subst hi
        rw [← hl]
        simp [ih pl hres]

theorem addIssue_preserves_pairwise (g : ReportGenerator)
    (title desc sev : String) (tn sc : Option String) (now : ℚ)
    (h : g.issues.Pairwise (fun a b => ¬ isDup a.title b.title)) :
    ((g.addIssue title desc sev tn sc now).2.issues).Pairwise
      (fun a b => ¬ isDup a.title b.title) := by
  unfold addIssue
  cases hscan : scanIssues title tn g.issues with
  | none =>
    simp only []
    rw [List.pairwise_append]
    refine ⟨h, List.pairwise_singleton _ _, ?_⟩
    intro a ha b hb
    simp only [List.mem_singleton] at hb
    subst hb
    have hnd := (scanIssues_eq_none_iff title tn g.issues).mp hscan a ha
    exact fun hd => hnd ((isDup_symm a.title title).mp hd)
  | some p =>
    obtain ⟨i, l'⟩ := p
    simp only []
    have ht := scanIssues_some_titles title tn g.issues i l' hscan
    have h' : (g.issues.map (fun e => e.title)).Pairwise (fun x y => ¬ isDup x y) :=
      (List.pairwise_map).mpr h
    rw [← ht] at h'
    exact (List.pairwise_map).mp h'

end ReportGenerator

/-- One `add_issue` call's arguments. -/
structure AddIssueCall where
  title : String
  description : String
  severity : String
  testName : Option String
  screenshot : Option String
  time : ℚ

/-- Folding a sequence of `add_issue` calls on a report generator. -/
def runAddIssues (g : ReportGenerator) (calls : List AddIssueCall) : ReportGenerator :=
  calls.foldl
    (fun g c => (g.addIssue c.title c.description c.severity c.testName c.screenshot c.time).2)
    g

theorem runAddIssues_pairwise (calls : List AddIssueCall) (g : ReportGenerator)
    (h : g.issues.Pairwise (fun a b => ¬ ReportGenerator.isDup a.title b.title)) :
    ((runAddIssues g calls).issues).Pairwise
      (fun a b => ¬ ReportGenerator.isDup a.title b.title) := by
  induction calls generalizing g with
  | nil => exact h
  | cons c rest ih =>
    exact ih _ (ReportGenerator.addIssue_preserves_pairwise g
      c.title c.description c.severity c.testName c.screenshot c.time h)

/-- C2: `add_issue` normalizes the new title and scans existing issues in
insertion order; with no equal-or-containing match it appends a fresh issue
with occurrences = 1 and returns its new id; the first matching issue gets its
occurrence count incremented (and the test name appended) and its id returned;
consequently, from a fresh generator, no two stored issues ever have matching
(equal-or-containing) normalized titles. -/
theorem C2_add_issue_dedup :
    (∀ (g : ReportGenerator) (title desc sev : String) (tn sc : Option String) (now : ℚ),
        (∀ e ∈ g.issues, ¬ ReportGenerator.isDup title e.title) →
          g.addIssue title desc sev tn sc now
            = ("ISSUE-" ++ toString (g.issues.length + 1),
               { g with issues := g.issues ++
                  [{ id := "ISSUE-" ++ toString (g.issues.length + 1)
                     title := title
                     description := desc
                     severity := sev
                     testName := tn
                     tests := if pyTruthy tn then [tn.getD ""] else []
                     screenshot := sc
                     occurrences := 1
                     created := now }] })) ∧
    (∀ (g : ReportGenerator) (title desc sev : String) (tn sc : Option String) (now : ℚ)
        (l₁ : List Issue) (e : Issue) (l₂ : List Issue),
        g.issues = l₁ ++ e :: l₂ →
        (∀ x ∈ l₁, ¬ ReportGenerator.isDup title x.title) →
        ReportGenerator.isDup title e.title →
          g.addIssue title desc sev tn sc now
            = (e.id, { g with issues := l₁ ++ ReportGenerator.bumpIssue tn e :: l₂ })) ∧
    (∀ (dir : String) (calls : List AddIssueCall),
        ((runAddIssues (ReportGenerator.mk0 dir) calls).issues).Pairwise
          (fun a b => ¬ ReportGenerator.isDup a.title b.title)) := by
  refine ⟨?_, ?_, ?_⟩
  · intro g title desc sev tn sc now h
    unfold ReportGenerator.addIssue
    rw [(ReportGenerator.scanIssues_eq_none_iff title tn g.issues).mpr h]
  · intro g title desc sev tn sc now l₁ e l₂ hg h1 he
    unfold ReportGenerator.addIssue
    rw [hg, ReportGenerator.scanIssues_first title tn l₁ e l₂ h1 he]
  · intro dir calls
    exact runAddIssues_pairwise calls (ReportGenerator.mk0 dir) (by simp [ReportGenerator.mk0])

/-- C2 witness: "Login failed" then "login FAILED again" merge into one issue
with occurrences = 2 and the first issue's id returned. -/
theorem C2_add_issue_dedup_witness :
    (((ReportGenerator.mk0 "reports").addIssue "Login failed" "Error message"
        "high" (some "test_login") none 0).2.addIssue "login FAILED again"
        "Same error" "high" (some "test_login2") none 1).1 = "ISSUE-1" ∧
    ((((ReportGenerator.mk0 "reports").addIssue "Login failed" "Error message"
        "high" (some "test_login") none 0).2.addIssue "login FAILED again"
        "Same error" "high" (some "test_login2") none 1).2.issues.map
      (fun i => i.occurrences)) = [2] := by
  have h := C2_add_issue_dedup.2.1
    ((ReportGenerator.mk0 "reports").addIssue "Login failed" "Error message"
        "high" (some "test_login") none 0).2
    "login FAILED again" "Same error" "high" (some "test_login2") none 1
    []
    { id := "ISSUE-1", title := "Login failed", description := "Error message",
      severity := "high", testName := some "test_login", tests := ["test_login"],
      screenshot := none, occurrences := 1, created := 0 }
    []
    (by decide) (by decide) (by decide)
  rw [h]
  exact ⟨rfl, rfl⟩

/-! ### Lemmas about flaky-test detection -/

namespace MetricsCollector

theorem flakyEntry_some_iff (minRuns : Nat) (p : String × List Bool) (e : FlakyInfo) :
    (if minRuns ≤ p.2.length then
      let passCount := p.2.countP (fun b => b)
      let failCount := p.2.length - passCount
      if 0 < passCount ∧ 0 < failCount then
        some (⟨p.1, p.2.length, passCount, failCount,
              (min passCount failCount : ℚ) / (p.2.length : ℚ) * 100⟩ : FlakyInfo)
      else none
     else none) = some e ↔
      minRuns ≤ p.2.length ∧ 0 < p.2.countP (fun b => b) ∧
      p.2.countP (fun b => b) < p.2.length ∧
      e = ⟨p.1, p.2.length, p.2.countP (fun b => b),
           p.2.length - p.2.countP (fun b => b),
           min (p.2.countP (fun b => b) : ℚ)
               ((p.2.length - p.2.countP (fun b => b) : ℕ) : ℚ)
             / (p.2.length : ℚ) * 100⟩ := by
  rcases p with ⟨n, rs⟩
  simp only []
  split_ifs with h1 h2
  · simp only [Option.some.injEq]
    constructor
    · intro he
      exact ⟨h1, h2.1, by omega, he.symm⟩
    · intro he
      exact he.2.2.2.symm
  · refine iff_of_false (by simp) ?_
    rintro ⟨_, hpc, hlt, _⟩
    exact h2 ⟨hpc, by omega⟩
  · refine iff_of_false (by simp) ?_
    rintro ⟨hm, _, _, _⟩
    exact h1 hm

theorem mem_flakyEntries_iff (c : MetricsCollector) (minRuns : Nat) (e : FlakyInfo) :
    e ∈ c.flakyEntries minRuns ↔
      ∃ p ∈ c.testResults,
        minRuns ≤ p.2.length ∧ 0 < p.2.countP (fun b => b) ∧
        p.2.countP (fun b => b) < p.2.length ∧
        e = ⟨p.1, p.2.length, p.2.countP (fun b => b),
             p.2.length - p.2.countP (fun b => b),
             min (p.2.countP (fun b => b) : ℚ)
                 ((p.2.length - p.2.countP (fun b => b) : ℕ) : ℚ)
               / (p.2.length : ℚ) * 100⟩ := by
  unfold flakyEntries
  rw [List.mem_filterMap]
  constructor
  · rintro ⟨p, hp, hf⟩
    exact ⟨p, hp, (flakyEntry_some_iff minRuns p e).mp hf⟩
  · rintro ⟨p, hp, hf⟩
    exact ⟨p, hp, (flakyEntry_some_iff minRuns p e).mpr hf⟩

end MetricsCollector

/-- C5: `get_flaky_tests(min_runs)` returns exactly the test names whose run
count is at least `min_runs` and whose sequence has both a pass and a fail,
each with `flakiness_rate = min(pass_count, fail_count) / total_runs × 100`,
sorted descending by flakiness rate with ties kept in first-seen order (it is
a stable sort of the first-seen-order entries); for a single name with runs
[pass, fail, pass] and `min_runs = 3` it returns exactly one entry with rate
100/3 ≈ 33.33. -/
theorem C5_get_flaky_tests :
    (∀ (c : MetricsCollector) (minRuns : Nat),
      (∀ e : MetricsCollector.FlakyInfo,
          e ∈ c.getFlakyTests minRuns ↔
            ∃ p ∈ c.testResults,
              minRuns ≤ p.2.length ∧ 0 < p.2.countP (fun b => b) ∧
              p.2.countP (fun b => b) < p.2.length ∧
              e = ⟨p.1, p.2.length, p.2.countP (fun b => b),
                   p.2.length - p.2.countP (fun b => b),
                   min (p.2.countP (fun b => b) : ℚ)
                       ((p.2.length - p.2.countP (fun b => b) : ℕ) : ℚ)
                     / (p.2.length : ℚ) * 100⟩) ∧
      (∀ e ∈ c.getFlakyTests minRuns,
          e.flakinessRate
            = (min e.passCount e.failCount : ℚ) / (e.totalRuns : ℚ) * 100) ∧
      (c.getFlakyTests minRuns).Sorted
        (fun a b => b.flakinessRate ≤ a.flakinessRate) ∧
      (∀ v : ℚ,
          (c.getFlakyTests minRuns).filter (fun e => decide (e.flakinessRate = v))
            = (c.flakyEntries minRuns).filter (fun e => decide (e.flakinessRate = v))) ∧
      (c.getFlakyTests minRuns).Perm (c.flakyEntries minRuns)) ∧
    MetricsCollector.getFlakyTests
        ((((MetricsCollector.mkEmpty none 0).recordTestResult "checkout" true
            ).recordTestResult "checkout" false).recordTestResult "checkout" true) 3
      = [⟨"checkout", 3, 2, 1, 100 / 3⟩] := by
  constructor
  · intro c minRuns
    haveI : IsTotal MetricsCollector.FlakyInfo
        (fun a b => b.flakinessRate ≤ a.flakinessRate) :=
      ⟨fun a b => le_total b.flakinessRate a.flakinessRate⟩
    haveI : IsTrans MetricsCollector.FlakyInfo
        (fun a b => b.flakinessRate ≤ a.flakinessRate) :=
      ⟨fun _ _ _ hab hbc => le_trans hbc hab⟩
    refine ⟨?_, ?_, ?_, ?_, ?_⟩
    · intro e
      rw [MetricsCollector.getFlakyTests, List.mem_insertionSort,
          MetricsCollector.mem_flakyEntries_iff]
    · intro e he
      rw [MetricsCollector.getFlakyTests, List.mem_insertionSort,
          MetricsCollector.mem_flakyEntries_iff] at he
      obtain ⟨p, _, _, _, _, hrfl⟩ := he
      subst hrfl
      rfl
    · exact List.sorted_insertionSort _ _
    · intro v
      have hperm : (c.getFlakyTests minRuns).Perm (c.flakyEntries minRuns) :=
        List.perm_insertionSort _ _
      have hAB := hperm.filter (fun e => decide (e.flakinessRate = v))
      have hBmem : ∀ x ∈ (c.flakyEntries minRuns).filter
          (fun e => decide (e.flakinessRate = v)), x.flakinessRate = v := by
        intro x hx
        have := (List.mem_filter.mp hx).2
        simpa using this
      have hBpair : ((c.flakyEntries minRuns).filter
            (fun e => decide (e.flakinessRate = v))).Pairwise
          (fun a b => b.flakinessRate ≤ a.flakinessRate) := by
        apply List.pairwise_of_forall_mem_list
        intro a ha b hb
        rw [hBmem a ha, hBmem b hb]
      have hBsub : List.Sublist
          ((c.flakyEntries minRuns).filter (fun e => decide (e.flakinessRate = v)))
          (c.getFlakyTests minRuns) :=
        List.sublist_insertionSort hBpair (List.filter_sublist _)
      have hBfix : ((c.flakyEntries minRuns).filter
            (fun e => decide (e.flakinessRate = v))).filter
            (fun e => decide (e.flakinessRate = v))
          = (c.flakyEntries minRuns).filter (fun e => decide (e.flakinessRate = v)) := by
        apply List.filter_eq_self.mpr
        intro x hx
        exact (List.mem_filter.mp hx).2
      have hBsubA : List.Sublist
          ((c.flakyEntries minRuns).filter (fun e => decide (e.flakinessRate = v)))
          ((c.getFlakyTests minRuns).filter (fun e => decide (e.flakinessRate = v))) := by
        rw [← hBfix]
        exact hBsub.filter _
      exact (hBsubA.eq_of_length hAB.length_eq.symm).symm
    · exact List.perm_insertionSort _ _
  · norm_num [MetricsCollector.getFlakyTests, MetricsCollector.flakyEntries,
      MetricsCollector.mkEmpty, MetricsCollector.recordTestResult, trAppend,
      List.insertionSort, List.orderedInsert, List.filterMap_cons, List.countP_cons,
      List.countP_nil]

/-- C5 witness: the membership characterization instantiated on the concrete
[pass, fail, pass] collector. -/
theorem C5_get_flaky_tests_witness :
    (⟨"checkout", 3, 2, 1, 100 / 3⟩ : MetricsCollector.FlakyInfo) ∈
      MetricsCollector.getFlakyTests
        ((((MetricsCollector.mkEmpty none 0).recordTestResult "checkout" true
            ).recordTestResult "checkout" false).recordTestResult "checkout" true) 3 := by
  refine ((C5_get_flaky_tests.1 _ 3).1 _).mpr
    ⟨("checkout", [true, false, true]), ?_, ?_, ?_, ?_, ?_⟩
  · simp [MetricsCollector.mkEmpty, MetricsCollector.recordTestResult, trAppend]
  · simp
  · simp
  · simp
  · simp only [List.countP_cons, List.countP_nil]
    norm_num

/-! ### External-call behavior of `run_test` (C7) -/

/-- Whether a trace contains a metrics-collection attempt. -/
def attemptsMetrics (tr : List ExtCall) : Bool :=
  tr.any (fun c => match c with
    | ExtCall.metricsProbe => true
    | _ => false)

/-- Whether a trace contains a screenshot-capture attempt. -/
def attemptsCapture (tr : List ExtCall) : Bool :=
  tr.any (fun c => match c with
    | ExtCall.screenshotCapture _ => true
    | _ => false)

/-- Connected adapter with AirTest enabled, for the C7 counterexample. -/
def aC7 : GameAdapter :=
  { connected := true, airtestEnabled := true, screenshotDir := "screenshots",
    hasProcess := true }

/-- Environment in which the AirTest script file is missing, so the script
run fails and `run_test` returns a Failed result. -/
def envC7 : GameEnv :=
  { targetExists := true, targetIsFile := true, launchOk := true,
    scriptExists := false, psutilInstalled := true, probeOk := true,
    memoryMb := 512, cpuPercent := 10, now := 0, tEnd := 1 }

/-- C7 counterexample: a connected adapter whose AirTest script fails returns
a Failed result with no screenshot and no metrics, and the only external
interaction attempted is the script run — screenshot capture and metrics
collection are not attempted, contradicting "regardless of outcome". -/
theorem C7_counterexample :
    (GameAdapter.runTest aC7 envC7 "boss_fight" (some "boss.air")).1.status
        = TestStatus.failed ∧
    (GameAdapter.runTest aC7 envC7 "boss_fight" (some "boss.air")).1.screenshotPath
        = none ∧
    (GameAdapter.runTest aC7 envC7 "boss_fight" (some "boss.air")).1.metadata = [] ∧
    (GameAdapter.runTest aC7 envC7 "boss_fight" (some "boss.air")).2.2
        = [ExtCall.airtestRun "boss.air"] :=
  ⟨rfl, rfl, rfl, rfl⟩

/-- C7 (amended): screenshot capture is attempted — and screenshot and
metrics included in the result — exactly on runs that end Passed; a Failed
result (failing AirTest script) and a not-connected Error result attempt and
include neither. Metrics collection, however, can be attempted on a run that
does not end Passed: when `collect_metrics` raises (psutil missing with a
live process handle), the run ends Error with metrics attempted, screenshot
capture not attempted, and nothing included. -/
theorem C7_capture_only_on_pass (a : GameAdapter) (env : GameEnv)
    (tn : String) (script : Option String) :
    (attemptsCapture (GameAdapter.runTest a env tn script).2.2 = true
      ↔ (GameAdapter.runTest a env tn script).1.status = TestStatus.passed) ∧
    ((GameAdapter.runTest a env tn script).1.status = TestStatus.passed →
      attemptsMetrics (GameAdapter.runTest a env tn script).2.2 = true ∧
      ((GameAdapter.runTest a env tn script).1.metadata.map Prod.fst)
        = ["fps_average", "memory_mb"] ∧
      ((GameAdapter.runTest a env tn script).1.screenshotPath = none
        ↔ a.screenshotDir = "")) ∧
    ((GameAdapter.runTest a env tn script).1.status ≠ TestStatus.passed →
      (GameAdapter.runTest a env tn script).1.screenshotPath = none ∧
      (GameAdapter.runTest a env tn script).1.metadata = []) ∧
    (attemptsMetrics (GameAdapter.runTest a env tn script).2.2 = true →
      (GameAdapter.runTest a env tn script).1.status ≠ TestStatus.passed →
      (GameAdapter.runTest a env tn script).1.status = TestStatus.error) := by
  rcases script with _ | s <;>
    by_cases hc : a.connected <;>
    by_cases hat : a.airtestEnabled <;>
    by_cases hse : env.scriptExists <;>
    by_cases hproc : a.hasProcess <;>
    by_cases hps : env.psutilInstalled <;>
    by_cases hd : a.screenshotDir = "" <;>
    refine ⟨?_, ?_, ?_, ?_⟩ <;>
    simp [GameAdapter.runTest, GameAdapter.runAirtestScript, GameAdapter.finishRun,
      GameAdapter.collectMetrics, GameAdapter.addBetahub,
      GameAdapter.captureScreenshot, attemptsMetrics, attemptsCapture,
      hc, hat, hse, hproc, hps, hd]

/-- C7 witness: the amended theorem applied to the concrete failing-script
run, discharging the non-Passed hypotheses there. -/
theorem C7_capture_only_on_pass_witness :
    attemptsCapture (GameAdapter.runTest aC7 envC7 "boss_fight" (some "boss.air")).2.2
        = false ∧
    (GameAdapter.runTest aC7 envC7 "boss_fight" (some "boss.air")).1.screenshotPath
        = none ∧
    (GameAdapter.runTest aC7 envC7 "boss_fight" (some "boss.air")).1.metadata = [] := by
  have h := C7_capture_only_on_pass aC7 envC7 "boss_fight" (some "boss.air")
  have hst : (GameAdapter.runTest aC7 envC7 "boss_fight" (some "boss.air")).1.status
      ≠ TestStatus.passed := by decide
  refine ⟨?_, (h.2.2.1 hst).1, (h.2.2.1 hst).2⟩
  cases hcap : attemptsCapture (GameAdapter.runTest aC7 envC7 "boss_fight"
      (some "boss.air")).2.2
  · rfl
  · exact absurd (h.1.mp hcap) hst

end BetaTeam
